import Mathlib

/-!
Verification of the DataPipeline repository core: the synthetic energy-data
generator, the buffered uploader loop (two variants: the standalone
`src/data_simulator.py` and the Lambda variant
`src/simulator/data_simulator.py`), and the downstream S3-to-DynamoDB
ingester (two variants: `src/aws_lambda/s3_data_processor.py` and
`src/processor/s3_data_processor.py`).

Modelling conventions:
- Energy values are idealized as rationals; Python `round(x, 2)` becomes
  `round2` (round to the nearest multiple of 1/100).
- Randomness is passed in explicitly: each call site of `random.uniform`,
  `random.randint` or `random.random` becomes a parameter, and theorems
  carry the documented contract of the draw as a hypothesis
  (`uniform(a, b)` yields a value in the closed interval [a, b]).
- Wall-clock time is abstracted: each loop iteration reads the elapsed-time
  comparisons as booleans carried by a `Tick` environment.
- boto3 exceptions are modelled by `BotoError`; a call to
  `s3_client.put_object` either succeeds (`none`) or raises (`some e`).
  Python `try/except` becomes pattern matching on `Except`.
-/

namespace DataPipeline

/-- Python `round(x, 2)`: round to the nearest multiple of 1/100
(idealized over the rationals). -/
def round2 (q : ℚ) : ℚ := (round (100 * q) : ℚ) / 100

/-- Python format `f"{n:03d}"`: zero-pad a natural number to width 3. -/
def pad3 (n : Nat) : String :=
  if n < 10 then "00" ++ toString n
  else if n < 100 then "0" ++ toString n
  else toString n

/-- The botocore exception kinds relevant to the flush path.
`clientError` covers service-side request failures (missing bucket or
resource, access denied); `noCredentialsError` and
`endpointConnectionError` are `BotoCoreError` subclasses raised
client-side (missing credentials, network failure) and are NOT
`ClientError`s. -/
inductive BotoError where
  | clientError
  | noCredentialsError
  | endpointConnectionError
deriving Repr, DecidableEq

/-- Embedding of `S3Utils.upload_json_data(data, s3_key)` (identical in
`src/utils/s3_utils.py` and in `src/simulator/data_simulator.py`):
serialize `data` and call `put_object` inside
`try: ... return True / except ClientError: ... return False`.
`putResult` is the outcome of the `put_object` call: `none` means it
succeeded, `some e` means it raised `e`. Only `ClientError` is caught;
any other exception propagates to the caller. -/
def upload_json_data {α : Type} (data : List α) (putResult : Option BotoError) :
    Except BotoError Bool :=
  match putResult with
  | none => Except.ok true
  | some e => if e = BotoError.clientError then Except.ok false else Except.error e

-- round2 helper lemmas -----------------------------------------------------

theorem round2_mono {x y : ℚ} (h : x ≤ y) : round2 x ≤ round2 y := by
  unfold round2
  have h100 : (100 : ℚ) * x ≤ 100 * y := by nlinarith
  have : round (100 * x) ≤ round (100 * y) := by
    rw [round_eq, round_eq]
    exact Int.floor_le_floor (by linarith)
  have hc : ((round (100 * x) : ℤ) : ℚ) ≤ ((round (100 * y) : ℤ) : ℚ) := by
    exact_mod_cast this
  linarith

theorem round2_intCast (n : ℤ) : round2 ((n : ℚ)) = n := by
  unfold round2
  have : (100 : ℚ) * n = ((100 * n : ℤ) : ℚ) := by push_cast; ring
  rw [this, round_intCast]
  push_cast
  ring

/-- Rounding to two decimals keeps a value inside any integer-endpoint
interval containing it. -/
theorem round2_bounds {a b : ℤ} {x : ℚ} (h1 : (a : ℚ) ≤ x) (h2 : x ≤ (b : ℚ)) :
    (a : ℚ) ≤ round2 x ∧ round2 x ≤ (b : ℚ) := by
  constructor
  · have := round2_mono h1
    rwa [round2_intCast] at this
  · have := round2_mono h2
    rwa [round2_intCast] at this

end DataPipeline

namespace DataPipeline.Standalone

/-!
Embedding of `src/data_simulator.py` (the standalone variant).
-/

/-- The record produced by module-level `generate_data` in
`src/data_simulator.py`. The timestamp is the opaque strftime string. -/
structure Record where
  site_id : String
  timestamp : String
  energy_generated_kwh : ℚ
  energy_consumed_kwh : ℚ
deriving Repr, DecidableEq

/-- Embedding of `generate_data()` in `src/data_simulator.py`, lines 28-40.
`site_number` is the draw of `random.randint(1, 100)`, `ts` the
formatted current time, `g` the draw of `random.uniform(10, 200)` and
`c` the draw of `random.uniform(5, 180)`. There is no fault injection
in this variant. -/
def generate_data (site_number : Nat) (ts : String) (g c : ℚ) : Record :=
  { site_id := "SITECA" ++ pad3 site_number
    timestamp := ts
    energy_generated_kwh := round2 g
    energy_consumed_kwh := round2 c }

/-- The mutable fields of `DataSimulator` relevant to the loop:
`local_enabled`, `s3_enabled` (deciding whether `self.s3_utils` is set),
`stop_signal` and the buffer `data_feed`. -/
structure SimState where
  local_enabled : Bool
  s3_enabled : Bool
  stop_signal : Bool
  data_feed : List Record
deriving Repr, DecidableEq

/-- Embedding of `DataSimulator.signal_handler`: sets `self.stop_signal = True`
(the `sys.stdout.flush()` call has no effect on simulator state). -/
def signal_handler (s : SimState) : SimState :=
  { s with stop_signal := true }

/-- A call made to a sink during `_store_data`: either
`json.dump(self.data_feed, f)` to a local file, or
`upload_json_data(self.data_feed, s3_key)` to S3. The payload is the
batch handed over. -/
inductive SinkCall where
  | localSave (batch : List Record)
  | s3Put (batch : List Record)
deriving Repr, DecidableEq

/-- The batch a sink call hands over. -/
def SinkCall.batch : SinkCall → List Record
  | .localSave b => b
  | .s3Put b => b

/-- Embedding of `DataSimulator.save_data_locally`: returns early when `data_feed` is
empty, otherwise dumps the whole `data_feed` to one file. The file write
is modelled as succeeding. Returns the sink calls made. -/
def save_data_locally (s : SimState) : List SinkCall :=
  if s.data_feed.isEmpty then [] else [SinkCall.localSave s.data_feed]

/-- Embedding of `DataSimulator.upload_data_to_s3`: returns early when `data_feed` is
empty or `self.s3_utils` is `None` (i.e. s3 not enabled); otherwise calls
`upload_json_data(self.data_feed, s3_key)`. An exception not caught
there propagates. Returns the sink calls made. -/
def upload_data_to_s3 (s : SimState) (putResult : Option BotoError) :
    Except BotoError (List SinkCall) :=
  if s.data_feed.isEmpty || !s.s3_enabled then Except.ok []
  else
    match upload_json_data s.data_feed putResult with
    | Except.error e => Except.error e
    | Except.ok _ => Except.ok [SinkCall.s3Put s.data_feed]

/-- Embedding of `DataSimulator._store_data` (lines 128-137): save locally when
enabled, upload when enabled, then unconditionally `self.data_feed = []`.
If the upload raises an uncaught exception the clearing line is never
reached and the exception propagates. Returns the new state and the sink
calls made. -/
def store_data (s : SimState) (putResult : Option BotoError) :
    Except BotoError (SimState × List SinkCall) :=
  let localCalls := if s.local_enabled then save_data_locally s else []
  match (if s.s3_enabled then upload_data_to_s3 s putResult else Except.ok []) with
  | Except.error e => Except.error e
  | Except.ok s3Calls => Except.ok ({ s with data_feed := [] }, localCalls ++ s3Calls)

/-- One iteration environment of the `simulate_data` while-loop:
`sigint` says whether SIGINT was delivered since the previous iteration
(running `signal_handler` before the loop guard is read); `genDue` is the
value of `current_time - last_data_time >= data_interval`; `flushDue` is
the value of `current_time - start_time >= file_interval`; the remaining
fields are the random draws for this iteration and the outcome of the
`put_object` call should a flush happen. -/
structure Tick where
  sigint : Bool
  genDue : Bool
  flushDue : Bool
  site_number : Nat
  ts : String
  g : ℚ
  c : ℚ
  putResult : Option BotoError
deriving Repr, DecidableEq

/-- The record `generate_data()` produces on a given tick. -/
def tickRecord (t : Tick) : Record :=
  generate_data t.site_number t.ts t.g t.c

/-- Observable events of a run: a record generated and appended, or one
`_store_data` invocation (a flush attempt), tagged with the buffer
contents at the moment of the attempt. -/
inductive Event where
  | generated (r : Record)
  | flush (buffer : List Record)
deriving Repr, DecidableEq

/-- Outcome of running the loop against a finite schedule of tick
environments: the loop observed the stop flag and performed the final
flush (`finished`), the schedule was exhausted with the loop still
running (`outOfTicks`), or an uncaught exception propagated out of the
loop (`raised`). Each outcome carries the event trace. -/
inductive RunResult where
  | finished (s : SimState) (events : List Event)
  | outOfTicks (s : SimState) (events : List Event)
  | raised (e : BotoError) (events : List Event)
deriving Repr, DecidableEq

/-- The event trace of a run outcome. -/
def RunResult.events : RunResult → List Event
  | .finished _ es => es
  | .outOfTicks _ es => es
  | .raised _ es => es

/-- Prefix events onto a run outcome. -/
def addEvents (pre : List Event) : RunResult → RunResult
  | .finished s es => .finished s (pre ++ es)
  | .outOfTicks s es => .outOfTicks s (pre ++ es)
  | .raised e es => .raised e (pre ++ es)

/-- Embedding of `DataSimulator.simulate_data` (lines 105-126): while the stop flag is
unset, append a generated record when the data interval elapsed, and run
`_store_data` when the file interval elapsed; once the flag is observed,
run `_store_data` once more and exit. `finalPut` is the `put_object`
outcome for that final flush. -/
def runLoop (finalPut : Option BotoError) : SimState → List Tick → RunResult
  | s, [] => .outOfTicks s []
  | s, t :: rest =>
    let s0 := if t.sigint then signal_handler s else s
    if s0.stop_signal then
      match store_data s0 finalPut with
      | Except.error e => .raised e [Event.flush s0.data_feed]
      | Except.ok (s2, _) => .finished s2 [Event.flush s0.data_feed]
    else
      let s1 := if t.genDue then { s0 with data_feed := s0.data_feed ++ [tickRecord t] } else s0
      let evs1 : List Event := if t.genDue then [Event.generated (tickRecord t)] else []
      if t.flushDue then
        match store_data s1 t.putResult with
        | Except.error e => .raised e (evs1 ++ [Event.flush s1.data_feed])
        | Except.ok (s2, _) =>
            addEvents (evs1 ++ [Event.flush s1.data_feed]) (runLoop finalPut s2 rest)
      else addEvents evs1 (runLoop finalPut s1 rest)

end DataPipeline.Standalone

namespace DataPipeline.LambdaSim

/-!
Embedding of `src/simulator/data_simulator.py` (the Lambda variant).
-/

open DataPipeline

/-- The record produced by `DataSimulator.generate_data` in the Lambda
variant: the timestamp is an integer unix time. -/
structure Record where
  site_id : String
  timestamp : Int
  energy_generated_kwh : ℚ
  energy_consumed_kwh : ℚ
deriving Repr, DecidableEq

/-- The random draws consumed by one call of
`DataSimulator.generate_data` (lines 132-149): `site_number` from
`random.randint(1, 100)`, `ts` the current unix time, `g` from
`random.uniform(10, 200)`, `c` from `random.uniform(5, 180)`; `fg` is
`random.random() < 0.1` for the generated field and `gNeg` the draw of
`random.uniform(-2, 0)` used when `fg` holds; `fc` and `cNeg` likewise
for the consumed field. -/
structure Draw where
  site_number : Nat
  ts : Int
  g : ℚ
  c : ℚ
  fg : Bool
  gNeg : ℚ
  fc : Bool
  cNeg : ℚ
deriving Repr, DecidableEq

/-- Embedding of `DataSimulator.generate_data` (Lambda variant): base values from the
configured ranges, each field independently replaced by a small
negative-range draw with probability 0.1 (fault injection). -/
def generate_data (d : Draw) : Record :=
  let eg := round2 d.g
  let eg := if d.fg then round2 d.gNeg else eg
  let ec := round2 d.c
  let ec := if d.fc then round2 d.cNeg else ec
  { site_id := "SITECA" ++ pad3 d.site_number
    timestamp := d.ts
    energy_generated_kwh := eg
    energy_consumed_kwh := ec }

/-- State touched by `DataSimulator._signal_handler` (lines 113-116): the Lambda-variant
simulator state is the stop flag and the buffer; the handler sets the
flag and touches nothing else. -/
structure LState where
  mock : Bool
  stop_signal : Bool
  data_feed : List Record
deriving Repr, DecidableEq

/-- Embedding of `DataSimulator._signal_handler`: sets `self.stop_signal = True`
(`sys.stdout.flush()` has no effect on simulator state). -/
def signal_handler (s : LState) : LState :=
  { s with stop_signal := true }

/-- Embedding of `DataSimulator._store_data` (lines 118-130): return early when the
buffer is empty; otherwise call `upload_json_data(self.data_feed, ...)`
(its boolean result is ignored; an uncaught exception propagates) and
then clear the buffer. Returns the new buffer and the batch handed to
S3, when one was. -/
def store_data (feed : List Record) (putResult : Option BotoError) :
    Except BotoError (List Record × Option (List Record)) :=
  if feed.isEmpty then Except.ok (feed, none)
  else
    match upload_json_data feed putResult with
    | Except.error e => Except.error e
    | Except.ok _ => Except.ok ([], some feed)

/-- One iteration environment of the Lambda-variant `simulate_data`
while-loop: the remaining-time reading at the top of the iteration (from
`context.get_remaining_time_in_millis()/1000` or `300 - elapsed`), the
current value of `stop_signal` (which the loop body never consults), and
the random draws for this iteration. -/
structure LTick where
  remaining_time : ℚ
  stop_signal : Bool
  draw : Draw
deriving Repr, DecidableEq

/-- Outcome of the Lambda-variant loop against a finite tick schedule:
break taken and `_store_data` run (`finished`, with the batch uploaded,
if any), schedule exhausted with the loop still running (`outOfTicks`),
or an uncaught exception from the final upload (`raised`). -/
inductive LResult where
  | finished (feed : List Record) (flushed : Option (List Record))
  | outOfTicks (feed : List Record)
  | raised (e : BotoError)
deriving Repr, DecidableEq

/-- Embedding of `DataSimulator.simulate_data` (lines 151-175), the `while True` loop:
each iteration reads the remaining time, breaks when it is below 15
seconds, otherwise generates a record and appends it; after the break,
`_store_data` runs once. `finalPut` is the `put_object` outcome of that
final upload. The loop never reads `stop_signal`. -/
def simulate_data (finalPut : Option BotoError) :
    List Record → List LTick → LResult
  | feed, [] => .outOfTicks feed
  | feed, t :: rest =>
    if t.remaining_time < 15 then
      match store_data feed finalPut with
      | Except.error e => .raised e
      | Except.ok (feed2, flushed) => .finished feed2 flushed
    else simulate_data finalPut (feed ++ [generate_data t.draw]) rest

end DataPipeline.LambdaSim

namespace DataPipeline.Ingester

/-!
Embedding of `store_in_dynamodb` from the two processor variants,
`src/aws_lambda/s3_data_processor.py` (lines 74-95) and
`src/processor/s3_data_processor.py` (lines 78-108).
-/

open DataPipeline

/-- An ingested JSON record as read from a flushed S3 file
(`read_s3_file` returns arbitrary parsed JSON; the energy fields are
idealized as rationals, the timestamp as an integer). -/
structure InRecord where
  site_id : String
  timestamp : Int
  energy_generated_kwh : ℚ
  energy_consumed_kwh : ℚ
deriving Repr, DecidableEq

/-- The item `store_in_dynamodb` puts into the table. -/
structure Item where
  site_id : String
  timestamp : Int
  energy_generated_kwh : ℚ
  energy_consumed_kwh : ℚ
  net_energy_kwh : ℚ
  anomaly : Bool
deriving Repr, DecidableEq

/-- The anomaly formula shared verbatim by both variants:
`record["energy_generated_kwh"] < 0 or record["energy_consumed_kwh"] < 0`. -/
def anomalyFlag (g c : ℚ) : Bool :=
  decide (g < 0) || decide (c < 0)

/-- Embedding of `store_in_dynamodb` in `src/aws_lambda/s3_data_processor.py`:
passes the fields through and computes
`net_energy_kwh = Decimal(str(g - c))` — the difference is NOT rounded —
and `anomaly = g < 0 or c < 0`. -/
def store_in_dynamodb_awsLambda (r : InRecord) : Item :=
  { site_id := r.site_id
    timestamp := r.timestamp
    energy_generated_kwh := r.energy_generated_kwh
    energy_consumed_kwh := r.energy_consumed_kwh
    net_energy_kwh := r.energy_generated_kwh - r.energy_consumed_kwh
    anomaly := anomalyFlag r.energy_generated_kwh r.energy_consumed_kwh }

/-- Embedding of `store_in_dynamodb` in `src/processor/s3_data_processor.py`:
passes the fields through and computes
`net_energy_kwh = Decimal(str(round(g - c, 2)))` — rounded to two
decimals — and `anomaly = bool(g < 0 or c < 0)`. -/
def store_in_dynamodb_processor (r : InRecord) : Item :=
  { site_id := r.site_id
    timestamp := r.timestamp
    energy_generated_kwh := r.energy_generated_kwh
    energy_consumed_kwh := r.energy_consumed_kwh
    net_energy_kwh := round2 (r.energy_generated_kwh - r.energy_consumed_kwh)
    anomaly := anomalyFlag r.energy_generated_kwh r.energy_consumed_kwh }

end DataPipeline.Ingester

namespace DataPipeline.Standalone

/-!
Helper lemmas describing single steps of the standalone uploader loop.
-/

/-- Flushing with a successful `put_object` call: `_store_data` always
returns normally, clears the buffer, and the sink calls it made are the
local dump (when enabled and nonempty) and the S3 put (when enabled and
nonempty), each handed the whole prior buffer. -/
theorem store_data_none (s : SimState) :
    store_data s none =
      Except.ok ({ s with data_feed := [] },
        (if s.local_enabled then save_data_locally s else []) ++
        (if s.data_feed.isEmpty || !s.s3_enabled then []
         else [SinkCall.s3Put s.data_feed])) := by
  cases hs3 : s.s3_enabled <;>
    simp [store_data, upload_data_to_s3, upload_json_data, hs3] <;>
    split_ifs <;> simp_all

/-- Flushing when `put_object` raises `ClientError`: the error is caught
inside `upload_json_data`, so `_store_data` returns normally and still
clears the buffer. -/
theorem store_data_clientError (s : SimState) :
    ∃ cs, store_data s (some BotoError.clientError) =
      Except.ok ({ s with data_feed := [] }, cs) := by
  cases hs3 : s.s3_enabled <;>
    simp [store_data, upload_data_to_s3, upload_json_data, hs3] <;>
    split_ifs <;> simp_all

/-- Flushing when `put_object` raises anything other than `ClientError`
while S3 is enabled and the buffer nonempty: nothing catches it, so
`_store_data` propagates the exception (and the clearing line is never
reached). -/
theorem store_data_raise (s : SimState) (e : BotoError)
    (he : e ≠ BotoError.clientError) (hs3 : s.s3_enabled = true)
    (hne : s.data_feed ≠ []) :
    store_data s (some e) = Except.error e := by
  simp [store_data, upload_data_to_s3, upload_json_data, hs3, he,
    List.isEmpty_iff, hne]

/-- Once the loop guard observes the stop flag, the run is the final
`_store_data` alone: the remaining schedule is never consulted. -/
theorem runLoop_stop_step (fp : Option BotoError) (s : SimState) (t : Tick)
    (rest : List Tick)
    (h : (if t.sigint then signal_handler s else s).stop_signal = true) :
    runLoop fp s (t :: rest) =
      match store_data (if t.sigint then signal_handler s else s) fp with
      | Except.error e => RunResult.raised e [Event.flush s.data_feed]
      | Except.ok (s2, _) => RunResult.finished s2 [Event.flush s.data_feed] := by
  cases ht : t.sigint with
  | false =>
    rw [ht] at h
    simp only [Bool.false_eq_true, if_false] at h
    simp [runLoop, ht, h]
  | true =>
    simp [runLoop, ht, signal_handler]

/-- A generation-only iteration (flag unobserved, data interval elapsed,
file interval not elapsed) appends exactly one generated record. -/
theorem runLoop_gen_step (fp : Option BotoError) (s : SimState) (t : Tick)
    (rest : List Tick) (hsig : t.sigint = false) (hstop : s.stop_signal = false)
    (hgen : t.genDue = true) (hflush : t.flushDue = false) :
    runLoop fp s (t :: rest) =
      addEvents [Event.generated (tickRecord t)]
        (runLoop fp { s with data_feed := s.data_feed ++ [tickRecord t] } rest) := by
  simp [runLoop, hsig, hstop, hgen, hflush]

/-- A flush iteration whose `_store_data` returns normally continues the
loop on the remaining schedule with the state `_store_data` produced. -/
theorem runLoop_flush_ok_step (fp : Option BotoError) (s : SimState) (t : Tick)
    (rest : List Tick) (hsig : t.sigint = false) (hstop : s.stop_signal = false)
    (hgen : t.genDue = false) (hflush : t.flushDue = true)
    (s2 : SimState) (cs : List SinkCall)
    (h : store_data s t.putResult = Except.ok (s2, cs)) :
    runLoop fp s (t :: rest) =
      addEvents [Event.flush s.data_feed] (runLoop fp s2 rest) := by
  simp [runLoop, hsig, hstop, hgen, hflush, h]

/-- Generation-only schedules: the loop appends one record per tick, in
order, and never exits. -/
theorem runLoop_gen_only (fp : Option BotoError) (ticks : List Tick) :
    ∀ s : SimState, s.stop_signal = false →
    (∀ t ∈ ticks, t.sigint = false ∧ t.genDue = true ∧ t.flushDue = false) →
    runLoop fp s ticks =
      RunResult.outOfTicks { s with data_feed := s.data_feed ++ ticks.map tickRecord }
        (ticks.map (fun t => Event.generated (tickRecord t))) := by
  induction ticks with
  | nil => intro s hstop _; simp [runLoop]
  | cons t rest ih =>
    intro s hstop hticks
    obtain ⟨h1, h2, h3⟩ := hticks t (by simp)
    rw [runLoop_gen_step fp s t rest h1 hstop h2 h3]
    rw [ih { s with data_feed := s.data_feed ++ [tickRecord t] } hstop
      (fun u hu => hticks u (by simp [hu]))]
    simp [addEvents]

end DataPipeline.Standalone

namespace DataPipeline.Standalone

/-- Running `_store_data` on an empty buffer is a no-op flush: it returns
normally, makes no sink call, and the buffer stays empty, whatever the
would-be `put_object` outcome. -/
theorem store_data_empty (s : SimState) (fp : Option BotoError)
    (h : s.data_feed = []) :
    store_data s fp = Except.ok ({ s with data_feed := [] }, []) := by
  cases hs3 : s.s3_enabled <;> cases hl : s.local_enabled <;>
    simp [store_data, upload_data_to_s3, save_data_locally, h, hs3, hl]

/-- A concrete record used by witnesses and counterexamples. -/
def exRecord : Record :=
  { site_id := "SITECA001"
    timestamp := "2025_01_01_00_00_00"
    energy_generated_kwh := 100
    energy_consumed_kwh := 50 }

/-- A concrete simulator state: S3 enabled, one buffered record. -/
def exState : SimState :=
  { local_enabled := false
    s3_enabled := true
    stop_signal := false
    data_feed := [exRecord] }

/-- A concrete simulator state as fresh from the constructor: local
mode, empty buffer. -/
def startState : SimState :=
  { local_enabled := true
    s3_enabled := false
    stop_signal := false
    data_feed := [] }

/-- A concrete state whose stop flag is already set and whose buffer is
empty. -/
def exStopStateEmpty : SimState :=
  { local_enabled := true
    s3_enabled := true
    stop_signal := true
    data_feed := [] }

/-- A tick on which the file interval elapsed and `put_object` raises
`NoCredentialsError`. -/
def exTickNoCred : Tick :=
  { sigint := false, genDue := false, flushDue := true, site_number := 1
    ts := "t1", g := 100, c := 50
    putResult := some BotoError.noCredentialsError }

/-- A tick on which the file interval elapsed and `put_object` raises
`ClientError`. -/
def exTickFail : Tick :=
  { sigint := false, genDue := false, flushDue := true, site_number := 1
    ts := "t1", g := 100, c := 50
    putResult := some BotoError.clientError }

/-- A generation-only tick. -/
def exTickGen : Tick :=
  { sigint := false, genDue := true, flushDue := false, site_number := 2
    ts := "t2", g := 20, c := 10, putResult := none }

/-- A second generation-only tick. -/
def exTickGen2 : Tick :=
  { sigint := false, genDue := true, flushDue := false, site_number := 5
    ts := "t5", g := 55, c := 25, putResult := none }

/-- A concrete Lambda-variant record. -/
def exLRecord : LambdaSim.Record :=
  { site_id := "SITECA002"
    timestamp := 1700000000
    energy_generated_kwh := 50
    energy_consumed_kwh := 20 }

/-- C1 counterexample: with S3 enabled and one buffered record, when the
Sink reports failure (`put_object` raises `ClientError`, so
`upload_json_data` returns `False`), `_store_data` nevertheless clears
`data_feed`: the buffer after the attempt is empty, not equal to the
buffer before it. -/
theorem flush_failure_clears_buffer_cex :
    upload_json_data exState.data_feed (some BotoError.clientError) =
      Except.ok false
    ∧ store_data exState (some BotoError.clientError) =
        Except.ok ({ exState with data_feed := [] }, [SinkCall.s3Put [exRecord]])
    ∧ exState.data_feed = [exRecord]
    ∧ ([] : List Record) ≠ exState.data_feed := by
  refine ⟨rfl, rfl, rfl, by decide⟩

/-- C1 (amended): when the Sink reports failure on a flush attempt
(`put_object` raises `ClientError` and `upload_json_data` returns
`False`), `_store_data` still clears the buffer — the buffered records
are dropped, at-most-once delivery — and the loop proceeds to the next
tick in normal operation. The Lambda-variant `_store_data` clears its
buffer the same way. -/
theorem flush_failure_clears_buffer
    (s : SimState) (t : Tick) (rest : List Tick) (fp : Option BotoError)
    (feed : List LambdaSim.Record)
    (hsig : t.sigint = false) (hstop : s.stop_signal = false)
    (hgen : t.genDue = false) (hflush : t.flushDue = true)
    (hput : t.putResult = some BotoError.clientError) (hfeed : feed ≠ []) :
    (∃ cs, store_data s (some BotoError.clientError) =
        Except.ok ({ s with data_feed := [] }, cs))
    ∧ runLoop fp s (t :: rest) =
        addEvents [Event.flush s.data_feed]
          (runLoop fp { s with data_feed := [] } rest)
    ∧ LambdaSim.store_data feed (some BotoError.clientError) =
        Except.ok ([], some feed) := by
  obtain ⟨cs, hcs⟩ := store_data_clientError s
  refine ⟨⟨cs, hcs⟩, ?_, ?_⟩
  · exact runLoop_flush_ok_step fp s t rest hsig hstop hgen hflush _ cs
      (by rw [hput]; exact hcs)
  · have : ¬ feed.isEmpty := by
      cases feed with
      | nil => exact absurd rfl hfeed
      | cons a l => simp
    simp [LambdaSim.store_data, upload_json_data, this]

/-- C1 witness: the amended statement instantiated at a concrete failing
flush tick. -/
theorem flush_failure_clears_buffer_witness :
    (∃ cs, store_data exState (some BotoError.clientError) =
        Except.ok ({ exState with data_feed := [] }, cs))
    ∧ runLoop none exState (exTickFail :: [exTickGen]) =
        addEvents [Event.flush exState.data_feed]
          (runLoop none { exState with data_feed := [] } [exTickGen])
    ∧ LambdaSim.store_data [exLRecord] (some BotoError.clientError) =
        Except.ok ([], some [exLRecord]) :=
  flush_failure_clears_buffer exState exTickFail [exTickGen] none [exLRecord]
    rfl rfl rfl rfl rfl (by decide)

/-- C2: once the cancellation flag is observed at the loop guard, exactly
one final flush attempt is performed — even when the buffer is empty, in
which case `_store_data` is still invoked and makes no sink call — and
no further ticks are processed: the remaining schedule is irrelevant and
the event trace from the observation point is the single flush. -/
theorem stop_flag_single_final_flush
    (s : SimState) (t : Tick) (rest rest' : List Tick) (fp : Option BotoError)
    (h : (if t.sigint then signal_handler s else s).stop_signal = true) :
    runLoop fp s (t :: rest) = runLoop fp s (t :: rest')
    ∧ (runLoop fp s (t :: rest)).events = [Event.flush s.data_feed]
    ∧ (s.data_feed = [] →
        runLoop fp s (t :: rest) =
          RunResult.finished
            { (if t.sigint then signal_handler s else s) with data_feed := [] }
            [Event.flush []]) := by
  rw [runLoop_stop_step fp s t rest h, runLoop_stop_step fp s t rest' h]
  refine ⟨rfl, ?_, ?_⟩
  · rcases hsd : store_data (if t.sigint then signal_handler s else s) fp with
      e | ⟨s2, cs⟩ <;> simp [hsd, RunResult.events]
  · intro hfeed
    have hfeed0 : (if t.sigint then signal_handler s else s).data_feed = [] := by
      cases t.sigint <;> simpa [signal_handler] using hfeed
    rw [store_data_empty _ fp hfeed0]
    simp [hfeed]

/-- C2 witness: the theorem instantiated at a state whose stop flag is
set with an empty buffer — the final flush runs as a no-op and the
remaining schedule is ignored. -/
theorem stop_flag_single_final_flush_witness :
    runLoop none exStopStateEmpty (exTickGen :: [exTickFail]) =
      runLoop none exStopStateEmpty (exTickGen :: [])
    ∧ (runLoop none exStopStateEmpty (exTickGen :: [exTickFail])).events =
        [Event.flush exStopStateEmpty.data_feed]
    ∧ (exStopStateEmpty.data_feed = [] →
        runLoop none exStopStateEmpty (exTickGen :: [exTickFail]) =
          RunResult.finished
            { (if exTickGen.sigint then signal_handler exStopStateEmpty
               else exStopStateEmpty) with data_feed := [] }
            [Event.flush []]) :=
  stop_flag_single_final_flush exStopStateEmpty exTickGen [exTickFail] [] none rfl

end DataPipeline.Standalone

namespace DataPipeline.Standalone

/-- C3: after a successful flush (`put_object` succeeds) `_store_data`
always returns normally with an empty buffer, every batch handed to a
sink during the flush is exactly the buffer as it stood immediately
before the call — same contents in order, hence same length — and when
S3 is enabled on a nonempty buffer, the S3 put is among those calls. -/
theorem successful_flush_empties_buffer (s s2 : SimState) (cs : List SinkCall)
    (h : store_data s none = Except.ok (s2, cs)) :
    s2.data_feed = []
    ∧ (∀ c ∈ cs, SinkCall.batch c = s.data_feed)
    ∧ (∀ c ∈ cs, (SinkCall.batch c).length = s.data_feed.length)
    ∧ (s.s3_enabled = true → s.data_feed ≠ [] → SinkCall.s3Put s.data_feed ∈ cs) := by
  rw [store_data_none s] at h
  injection h with h'
  injection h' with h1 h2
  subst h1
  subst h2
  have hb : ∀ c ∈ (if s.local_enabled then save_data_locally s else []) ++
      (if s.data_feed.isEmpty || !s.s3_enabled then []
       else [SinkCall.s3Put s.data_feed]),
      SinkCall.batch c = s.data_feed := by
    intro c hc
    rcases List.mem_append.1 hc with hc | hc
    · by_cases hl : s.local_enabled = true
      · by_cases hne : s.data_feed.isEmpty = true
        · simp [hl, hne, save_data_locally] at hc
        · simp only [hl, if_true, save_data_locally, hne, Bool.false_eq_true,
            if_false, List.mem_singleton] at hc
          subst hc; rfl
      · simp only [Bool.not_eq_true] at hl
        simp [hl] at hc
    · by_cases hcond : (s.data_feed.isEmpty || !s.s3_enabled) = true
      · simp [hcond] at hc
      · simp only [hcond, Bool.false_eq_true, if_false, List.mem_singleton] at hc
        subst hc; rfl
  refine ⟨rfl, hb, fun c hc => by rw [hb c hc], ?_⟩
  intro hs3 hne
  have hemp : s.data_feed.isEmpty = false := by
    cases hfd : s.data_feed with
    | nil => exact absurd hfd hne
    | cons a l => rfl
  simp [hs3, hemp]

/-- C3 witness: a successful flush from the concrete S3-enabled state
with one buffered record. -/
theorem successful_flush_empties_buffer_witness :
    ({ exState with data_feed := [] } : SimState).data_feed = []
    ∧ (∀ c ∈ [SinkCall.s3Put [exRecord]], SinkCall.batch c = exState.data_feed)
    ∧ (∀ c ∈ [SinkCall.s3Put [exRecord]],
        (SinkCall.batch c).length = exState.data_feed.length)
    ∧ (exState.s3_enabled = true → exState.data_feed ≠ [] →
        SinkCall.s3Put exState.data_feed ∈ [SinkCall.s3Put [exRecord]]) :=
  successful_flush_empties_buffer exState { exState with data_feed := [] }
    [SinkCall.s3Put [exRecord]] rfl

/-- C6 counterexample: with S3 enabled and one buffered record, a flush
attempt on which `put_object` raises `NoCredentialsError` (a credential
error) is caught nowhere on the flush path: the run of the uploader loop
ends with the exception having propagated past the loop boundary. -/
theorem uncaught_sink_error_cex :
    runLoop none exState [exTickNoCred] =
      RunResult.raised BotoError.noCredentialsError [Event.flush [exRecord]]
    ∧ upload_json_data [exRecord] (some BotoError.noCredentialsError) =
        Except.error BotoError.noCredentialsError := by
  constructor <;> rfl

/-- C6 (amended): sink failures surfacing as `ClientError` (missing
resource, service-side request errors) are caught inside
`upload_json_data`, logged and reported as `False`, and `_store_data`
returns normally so the loop continues; but an exception of any other
kind (`NoCredentialsError`, network `EndpointConnectionError`) is caught
nowhere on the flush path and propagates out of `_store_data`, past the
loop boundary. -/
theorem sink_clienterror_caught (data : List Record) (e : BotoError)
    (s : SimState) (he : e ≠ BotoError.clientError)
    (hs3 : s.s3_enabled = true) (hne : s.data_feed ≠ []) :
    upload_json_data data (some BotoError.clientError) = Except.ok false
    ∧ upload_json_data data (some e) = Except.error e
    ∧ (∃ out, store_data s (some BotoError.clientError) = Except.ok out)
    ∧ store_data s (some e) = Except.error e := by
  refine ⟨rfl, by simp [upload_json_data, he], ?_,
    store_data_raise s e he hs3 hne⟩
  obtain ⟨cs, hcs⟩ := store_data_clientError s
  exact ⟨_, hcs⟩

/-- C6 witness: the amended statement at the concrete S3-enabled state,
with `NoCredentialsError` as the uncaught exception kind. -/
theorem sink_clienterror_caught_witness :
    upload_json_data [exRecord] (some BotoError.clientError) = Except.ok false
    ∧ upload_json_data [exRecord] (some BotoError.noCredentialsError) =
        Except.error BotoError.noCredentialsError
    ∧ (∃ out, store_data exState (some BotoError.clientError) = Except.ok out)
    ∧ store_data exState (some BotoError.noCredentialsError) =
        Except.error BotoError.noCredentialsError :=
  sink_clienterror_caught [exRecord] BotoError.noCredentialsError exState
    (by decide) rfl (by decide)

/-- C7: after N generation ticks with no intervening flush and no
cancellation, the buffer is the prior buffer extended by exactly the N
generated records, one per tick, in order — no drops, no duplicates —
so its length grows by exactly N. -/
theorem buffer_growth_n_ticks (s : SimState) (ticks : List Tick)
    (fp : Option BotoError) (hstop : s.stop_signal = false)
    (hticks : ∀ t ∈ ticks, t.sigint = false ∧ t.genDue = true ∧ t.flushDue = false) :
    runLoop fp s ticks =
      RunResult.outOfTicks
        { s with data_feed := s.data_feed ++ ticks.map tickRecord }
        (ticks.map (fun t => Event.generated (tickRecord t)))
    ∧ (s.data_feed ++ ticks.map tickRecord).length
        = s.data_feed.length + ticks.length := by
  refine ⟨runLoop_gen_only fp ticks s hstop hticks, by simp⟩

/-- C7 witness: two generation ticks from the fresh local state grow the
buffer from zero to exactly two records. -/
theorem buffer_growth_n_ticks_witness :
    runLoop none startState [exTickGen, exTickGen2] =
      RunResult.outOfTicks
        { startState with data_feed :=
            startState.data_feed ++ [exTickGen, exTickGen2].map tickRecord }
        ([exTickGen, exTickGen2].map (fun t => Event.generated (tickRecord t)))
    ∧ (startState.data_feed ++ [exTickGen, exTickGen2].map tickRecord).length
        = startState.data_feed.length + [exTickGen, exTickGen2].length :=
  buffer_growth_n_ticks startState [exTickGen, exTickGen2] none rfl (by decide)

/-- C8: the SIGINT handler only sets the stop flag to true: the buffer
and every other field of the simulator state are unchanged, in both the
standalone and the Lambda variant. -/
theorem signal_handler_only_sets_flag (s : SimState) (u : LambdaSim.LState) :
    (signal_handler s).stop_signal = true
    ∧ (signal_handler s).data_feed = s.data_feed
    ∧ (signal_handler s).local_enabled = s.local_enabled
    ∧ (signal_handler s).s3_enabled = s.s3_enabled
    ∧ (LambdaSim.signal_handler u).stop_signal = true
    ∧ (LambdaSim.signal_handler u).data_feed = u.data_feed
    ∧ (LambdaSim.signal_handler u).mock = u.mock :=
  ⟨rfl, rfl, rfl, rfl, rfl, rfl, rfl⟩

end DataPipeline.Standalone

namespace DataPipeline.LambdaSim

/-- Independence of the Lambda-variant loop from the stop flag: two tick
schedules agreeing on remaining time and draws (and possibly differing
on every stop-flag value) produce identical runs. -/
theorem simulate_data_flag_independent (fp : Option BotoError) :
    ∀ (ts ts' : List LTick) (feed : List Record),
    ts.map (fun t => (t.remaining_time, t.draw)) =
      ts'.map (fun t => (t.remaining_time, t.draw)) →
    simulate_data fp feed ts = simulate_data fp feed ts' := by
  intro ts
  induction ts with
  | nil =>
    intro ts' feed h
    cases ts' with
    | nil => rfl
    | cons u us => simp at h
  | cons t rest ih =>
    intro ts' feed h
    cases ts' with
    | nil => simp at h
    | cons u us =>
      simp only [List.map_cons, List.cons.injEq, Prod.mk.injEq] at h
      obtain ⟨⟨hr, hd⟩, htail⟩ := h
      simp only [simulate_data, hr, hd]
      by_cases hlt : u.remaining_time < 15
      · simp [hlt]
      · simp only [hlt, if_false]
        exact ih us (feed ++ [generate_data u.draw]) htail

/-- The Lambda-variant loop never exits while every tick still has at
least 15 seconds of budget: it keeps generating, regardless of the stop
flag values. -/
theorem simulate_data_no_exit (fp : Option BotoError) :
    ∀ (ts : List LTick) (feed : List Record),
    (∀ t ∈ ts, ¬ t.remaining_time < 15) →
    simulate_data fp feed ts =
      LResult.outOfTicks (feed ++ ts.map (fun t => generate_data t.draw)) := by
  intro ts
  induction ts with
  | nil => intro feed _; simp [simulate_data]
  | cons t rest ih =>
    intro feed h
    have ht : ¬ t.remaining_time < 15 := h t (by simp)
    simp only [simulate_data, ht, if_false]
    rw [ih (feed ++ [generate_data t.draw]) (fun u hu => h u (by simp [hu]))]
    simp

end DataPipeline.LambdaSim

namespace DataPipeline.LambdaSim

/-- C9: the Lambda-variant loop body never reads the cancellation flag:
runs are unchanged under arbitrary changes of the flag values along the
schedule, the loop keeps running as long as every remaining-time reading
is at least 15 seconds, and it exits exactly when a reading drops below
15, performing the final `_store_data`. -/
theorem lambda_loop_ignores_stop_flag (feed : List Record)
    (ts ts' : List LTick) (fp : Option BotoError)
    (h : ts.map (fun t => (t.remaining_time, t.draw)) =
      ts'.map (fun t => (t.remaining_time, t.draw))) :
    simulate_data fp feed ts = simulate_data fp feed ts'
    ∧ ((∀ t ∈ ts, ¬ t.remaining_time < 15) →
        simulate_data fp feed ts =
          LResult.outOfTicks (feed ++ ts.map (fun t => generate_data t.draw)))
    ∧ (∀ (u : LTick) (rest : List LTick), u.remaining_time < 15 →
        simulate_data fp feed (u :: rest) =
          match store_data feed fp with
          | Except.error e => LResult.raised e
          | Except.ok (feed2, flushed) => LResult.finished feed2 flushed) := by
  refine ⟨simulate_data_flag_independent fp ts ts' feed h,
    simulate_data_no_exit fp ts feed, ?_⟩
  intro u rest hu
  simp [simulate_data, hu]

/-- A concrete tick with ample budget and the stop flag clear. -/
def exLTick : LTick :=
  { remaining_time := 200, stop_signal := false
    draw := { site_number := 3, ts := 10, g := 40, c := 30
              fg := false, gNeg := -1, fc := false, cNeg := -1 } }

/-- The same tick with the stop flag set. -/
def exLTickFlagged : LTick :=
  { exLTick with stop_signal := true }

/-- C9 witness: a schedule and its copy with the cancellation flag set on
every tick produce the same run, and with all budgets at 200 seconds the
loop never exits. -/
theorem lambda_loop_ignores_stop_flag_witness :
    simulate_data none [] [exLTick, exLTick] =
      simulate_data none [] [exLTickFlagged, exLTickFlagged]
    ∧ ((∀ t ∈ [exLTick, exLTick], ¬ t.remaining_time < 15) →
        simulate_data none [] [exLTick, exLTick] =
          LResult.outOfTicks
            ([] ++ [exLTick, exLTick].map (fun t => generate_data t.draw)))
    ∧ (∀ (u : LTick) (rest : List LTick), u.remaining_time < 15 →
        simulate_data none [] (u :: rest) =
          match store_data [] none with
          | Except.error e => LResult.raised e
          | Except.ok (feed2, flushed) => LResult.finished feed2 flushed) :=
  lambda_loop_ignores_stop_flag [] [exLTick, exLTick]
    [exLTickFlagged, exLTickFlagged] none (by rfl)

end DataPipeline.LambdaSim

namespace DataPipeline.LambdaSim

/-- C5 (amended): for admissible draws, a generated Measurement has
energy_generated_kwh in [10, 200] and energy_consumed_kwh in [5, 180]
except when fault injection is triggered, in which case the affected
field lies in [-2, 0] — nonpositive and small in magnitude, possibly
exactly zero — and site_id is always formed from a site number in the
bounded 100-site id space. -/
theorem generate_data_fault_ranges (d : Draw)
    (hsite1 : 1 ≤ d.site_number) (hsite2 : d.site_number ≤ 100)
    (hg1 : (10 : ℚ) ≤ d.g) (hg2 : d.g ≤ 200)
    (hc1 : (5 : ℚ) ≤ d.c) (hc2 : d.c ≤ 180)
    (hgN1 : (-2 : ℚ) ≤ d.gNeg) (hgN2 : d.gNeg ≤ 0)
    (hcN1 : (-2 : ℚ) ≤ d.cNeg) (hcN2 : d.cNeg ≤ 0) :
    (d.fg = true → (-2 : ℚ) ≤ (generate_data d).energy_generated_kwh ∧
      (generate_data d).energy_generated_kwh ≤ 0)
    ∧ (d.fg = false → (10 : ℚ) ≤ (generate_data d).energy_generated_kwh ∧
      (generate_data d).energy_generated_kwh ≤ 200)
    ∧ (d.fc = true → (-2 : ℚ) ≤ (generate_data d).energy_consumed_kwh ∧
      (generate_data d).energy_consumed_kwh ≤ 0)
    ∧ (d.fc = false → (5 : ℚ) ≤ (generate_data d).energy_consumed_kwh ∧
      (generate_data d).energy_consumed_kwh ≤ 180)
    ∧ (∃ n, 1 ≤ n ∧ n ≤ 100 ∧ (generate_data d).site_id = "SITECA" ++ pad3 n) := by
  refine ⟨?_, ?_, ?_, ?_, ⟨d.site_number, hsite1, hsite2, rfl⟩⟩
  · intro hfg
    simp only [generate_data, hfg, if_true]
    have h := round2_bounds (a := -2) (b := 0) (x := d.gNeg)
      (by exact_mod_cast hgN1) (by exact_mod_cast hgN2)
    exact ⟨by exact_mod_cast h.1, by exact_mod_cast h.2⟩
  · intro hfg
    simp only [generate_data, hfg, Bool.false_eq_true, if_false]
    have h := round2_bounds (a := 10) (b := 200) (x := d.g)
      (by exact_mod_cast hg1) (by exact_mod_cast hg2)
    exact ⟨by exact_mod_cast h.1, by exact_mod_cast h.2⟩
  · intro hfc
    simp only [generate_data, hfc, if_true]
    have h := round2_bounds (a := -2) (b := 0) (x := d.cNeg)
      (by exact_mod_cast hcN1) (by exact_mod_cast hcN2)
    exact ⟨by exact_mod_cast h.1, by exact_mod_cast h.2⟩
  · intro hfc
    simp only [generate_data, hfc, Bool.false_eq_true, if_false]
    have h := round2_bounds (a := 5) (b := 180) (x := d.c)
      (by exact_mod_cast hc1) (by exact_mod_cast hc2)
    exact ⟨by exact_mod_cast h.1, by exact_mod_cast h.2⟩

/-- A concrete admissible draw on which fault injection triggers for the
generated field and the uniform(-2, 0) draw equals 0. -/
def dZero : Draw :=
  { site_number := 7, ts := 0, g := 100, c := 90
    fg := true, gNeg := 0, fc := false, cNeg := -1 }

/-- C5 counterexample: the fault-injection value comes from
uniform(-2, 0), whose documented range includes 0; at the admissible
draw 0 the affected field equals 0, which is not negative, refuting
that a triggered fault always makes the field negative. -/
theorem fault_injection_zero_cex :
    dZero.fg = true
    ∧ ((-2 : ℚ) ≤ dZero.gNeg ∧ dZero.gNeg ≤ 0)
    ∧ (1 ≤ dZero.site_number ∧ dZero.site_number ≤ 100)
    ∧ ((10 : ℚ) ≤ dZero.g ∧ dZero.g ≤ 200)
    ∧ ((5 : ℚ) ≤ dZero.c ∧ dZero.c ≤ 180)
    ∧ ((-2 : ℚ) ≤ dZero.cNeg ∧ dZero.cNeg ≤ 0)
    ∧ (generate_data dZero).energy_generated_kwh = 0
    ∧ ¬ (generate_data dZero).energy_generated_kwh < 0 := by
  have h0 : round2 (0 : ℚ) = 0 := by
    have := round2_intCast 0
    simpa using this
  refine ⟨rfl, by norm_num [dZero], by norm_num [dZero], by norm_num [dZero],
    by norm_num [dZero], by norm_num [dZero], ?_, ?_⟩
  · simp [generate_data, dZero, h0]
  · simp [generate_data, dZero, h0]

/-- C5 witness: the amended range statement at the concrete admissible
draw with the generated-field fault triggered. -/
theorem generate_data_fault_ranges_witness :
    (dZero.fg = true → (-2 : ℚ) ≤ (generate_data dZero).energy_generated_kwh ∧
      (generate_data dZero).energy_generated_kwh ≤ 0)
    ∧ (dZero.fg = false → (10 : ℚ) ≤ (generate_data dZero).energy_generated_kwh ∧
      (generate_data dZero).energy_generated_kwh ≤ 200)
    ∧ (dZero.fc = true → (-2 : ℚ) ≤ (generate_data dZero).energy_consumed_kwh ∧
      (generate_data dZero).energy_consumed_kwh ≤ 0)
    ∧ (dZero.fc = false → (5 : ℚ) ≤ (generate_data dZero).energy_consumed_kwh ∧
      (generate_data dZero).energy_consumed_kwh ≤ 180)
    ∧ (∃ n, 1 ≤ n ∧ n ≤ 100 ∧
        (generate_data dZero).site_id = "SITECA" ++ pad3 n) :=
  generate_data_fault_ranges dZero (by decide) (by decide)
    (by norm_num [dZero]) (by norm_num [dZero]) (by norm_num [dZero])
    (by norm_num [dZero]) (by norm_num [dZero]) (by norm_num [dZero])
    (by norm_num [dZero]) (by norm_num [dZero])

end DataPipeline.LambdaSim

namespace DataPipeline.Standalone

/-- C10: the standalone-variant generator applies no fault injection:
for admissible uniform draws every record has energy_generated_kwh in
[10, 200] and energy_consumed_kwh in [5, 180], both fields are positive,
and the downstream anomaly flag is false on every record it produces. -/
theorem standalone_generator_no_faults (site : Nat) (ts : String) (g c : ℚ)
    (hg1 : (10 : ℚ) ≤ g) (hg2 : g ≤ 200)
    (hc1 : (5 : ℚ) ≤ c) (hc2 : c ≤ 180) :
    (10 : ℚ) ≤ (generate_data site ts g c).energy_generated_kwh
    ∧ (generate_data site ts g c).energy_generated_kwh ≤ 200
    ∧ (5 : ℚ) ≤ (generate_data site ts g c).energy_consumed_kwh
    ∧ (generate_data site ts g c).energy_consumed_kwh ≤ 180
    ∧ 0 < (generate_data site ts g c).energy_generated_kwh
    ∧ 0 < (generate_data site ts g c).energy_consumed_kwh
    ∧ Ingester.anomalyFlag (generate_data site ts g c).energy_generated_kwh
        (generate_data site ts g c).energy_consumed_kwh = false := by
  have hG := round2_bounds (a := 10) (b := 200) (x := g)
    (by exact_mod_cast hg1) (by exact_mod_cast hg2)
  have hC := round2_bounds (a := 5) (b := 180) (x := c)
    (by exact_mod_cast hc1) (by exact_mod_cast hc2)
  have hG1 : (10 : ℚ) ≤ round2 g := by exact_mod_cast hG.1
  have hG2 : round2 g ≤ 200 := by exact_mod_cast hG.2
  have hC1 : (5 : ℚ) ≤ round2 c := by exact_mod_cast hC.1
  have hC2 : round2 c ≤ 180 := by exact_mod_cast hC.2
  refine ⟨hG1, hG2, hC1, hC2, by show (0 : ℚ) < round2 g; linarith,
    by show (0 : ℚ) < round2 c; linarith, ?_⟩
  show Ingester.anomalyFlag (round2 g) (round2 c) = false
  simp only [Ingester.anomalyFlag, Bool.or_eq_false_iff,
    decide_eq_false_iff_not, not_lt]
  exact ⟨by linarith, by linarith⟩

/-- C10 witness: the statement at a concrete admissible draw. -/
theorem standalone_generator_no_faults_witness :
    (10 : ℚ) ≤ (generate_data 42 "ts" 100 90).energy_generated_kwh
    ∧ (generate_data 42 "ts" 100 90).energy_generated_kwh ≤ 200
    ∧ (5 : ℚ) ≤ (generate_data 42 "ts" 100 90).energy_consumed_kwh
    ∧ (generate_data 42 "ts" 100 90).energy_consumed_kwh ≤ 180
    ∧ 0 < (generate_data 42 "ts" 100 90).energy_generated_kwh
    ∧ 0 < (generate_data 42 "ts" 100 90).energy_consumed_kwh
    ∧ Ingester.anomalyFlag (generate_data 42 "ts" 100 90).energy_generated_kwh
        (generate_data 42 "ts" 100 90).energy_consumed_kwh = false :=
  standalone_generator_no_faults 42 "ts" 100 90 (by norm_num) (by norm_num)
    (by norm_num) (by norm_num)

end DataPipeline.Standalone

namespace DataPipeline.Ingester

/-- C4 (amended): both ingester variants compute anomaly exactly as
(energy_generated < 0 or energy_consumed < 0) and pass the identifying
fields through unchanged; their net_energy computations differ: the
processor variant stores round(generated - consumed, 2) while the
aws_lambda variant stores the unrounded difference. -/
theorem ingester_net_energy_anomaly (r : InRecord) :
    (store_in_dynamodb_processor r).net_energy_kwh =
      round2 (r.energy_generated_kwh - r.energy_consumed_kwh)
    ∧ (store_in_dynamodb_awsLambda r).net_energy_kwh =
        r.energy_generated_kwh - r.energy_consumed_kwh
    ∧ ((store_in_dynamodb_processor r).anomaly = true ↔
        (r.energy_generated_kwh < 0 ∨ r.energy_consumed_kwh < 0))
    ∧ ((store_in_dynamodb_awsLambda r).anomaly = true ↔
        (r.energy_generated_kwh < 0 ∨ r.energy_consumed_kwh < 0))
    ∧ (store_in_dynamodb_processor r).site_id = r.site_id
    ∧ (store_in_dynamodb_awsLambda r).site_id = r.site_id
    ∧ (store_in_dynamodb_processor r).timestamp = r.timestamp
    ∧ (store_in_dynamodb_awsLambda r).timestamp = r.timestamp := by
  refine ⟨rfl, rfl, ?_, ?_, rfl, rfl, rfl, rfl⟩ <;>
    simp [store_in_dynamodb_processor, store_in_dynamodb_awsLambda, anomalyFlag]

/-- An ingested record whose energy difference has three decimal
places (ingested files are arbitrary JSON read back by
read_s3_file). -/
def rThreeDec : InRecord :=
  { site_id := "SITECA001", timestamp := 0
    energy_generated_kwh := 201 / 200, energy_consumed_kwh := 0 }

/-- C4 counterexample: on a record whose energy difference is 1.005 the
aws_lambda ingester stores net_energy 1.005 — not rounded to the fixed
two-decimal precision the other variant uses, which would give 1.01 —
so the two cited variants disagree and the aws_lambda one applies no
rounding. -/
theorem net_energy_rounding_divergence_cex :
    (store_in_dynamodb_awsLambda rThreeDec).net_energy_kwh = 201 / 200
    ∧ round2 ((201 : ℚ) / 200) = 101 / 100
    ∧ (store_in_dynamodb_awsLambda rThreeDec).net_energy_kwh ≠
        round2 ((201 : ℚ) / 200)
    ∧ (store_in_dynamodb_awsLambda rThreeDec).net_energy_kwh ≠
        (store_in_dynamodb_processor rThreeDec).net_energy_kwh := by
  have hr : round2 ((201 : ℚ) / 200) = 101 / 100 := by
    unfold round2
    have h1 : (100 : ℚ) * (201 / 200) = ((101 : ℤ) : ℚ) - 1 / 2 := by norm_num
    have h2 : round ((100 : ℚ) * (201 / 200)) = 101 := by
      rw [h1, round_eq]
      norm_num
    rw [h2]
    norm_num
  have ha : (store_in_dynamodb_awsLambda rThreeDec).net_energy_kwh = 201 / 200 := by
    norm_num [store_in_dynamodb_awsLambda, rThreeDec]
  have hp : (store_in_dynamodb_processor rThreeDec).net_energy_kwh = 101 / 100 := by
    have : (rThreeDec.energy_generated_kwh - rThreeDec.energy_consumed_kwh : ℚ) =
        201 / 200 := by norm_num [rThreeDec]
    simp [store_in_dynamodb_processor, this, hr]
  refine ⟨ha, hr, ?_, ?_⟩
  · rw [ha, hr]; norm_num
  · rw [ha, hp]; norm_num

end DataPipeline.Ingester
